import Mathlib

/-!
Shallow embedding of the Smart-Home IoT simulation (sensors, devices,
gateway message broker, automation rules) and proofs of the spec claims.

Numeric JS values are modelled as rationals (`ℚ`); booleans as `Bool`;
mode / fan-speed strings as `String`.  A method that mutates an object and
may publish through the gateway is modelled as a function returning the
new state together with the list of published topics.  Payload contents
are not inspected by any claim, so a published message is represented by
its topic string.
-/

namespace SmartHome

/-- `Math.max(lo, Math.min(hi, x))`, the clamping pattern used throughout
the source. -/
def clamp (lo hi x : ℚ) : ℚ := max lo (min hi x)

/-! ### Sensors (sensors source file, base class `Sensor`) -/

/-- State of a base-class sensor: identity, inclusive bounds, current
value, rolling history of (value, timestamp) pairs, and whether a gateway
has been attached (`this.gateway !== null`). -/
structure SensorState where
  id : String
  name : String
  unit : String
  minValue : ℚ
  maxValue : ℚ
  value : ℚ
  history : List (ℚ × Nat)
  hasGateway : Bool
deriving DecidableEq

/-- `new Sensor(id, name, unit, minValue, maxValue)`: value starts at the
midpoint of the bounds, history empty, no gateway attached yet. -/
def Sensor.mkNew (id name unit : String) (minValue maxValue : ℚ) : SensorState :=
  { id := id, name := name, unit := unit, minValue := minValue, maxValue := maxValue
    value := (minValue + maxValue) / 2, history := [], hasGateway := false }

/-- `Sensor.setValue(newValue)` at time `now` (`Date.now()`): clamps to
`[minValue, maxValue]`, pushes `(value, now)` onto the history, shifts the
oldest entry off once the length exceeds 60, and publishes a reading when
a gateway is attached. -/
def Sensor.setValue (s : SensorState) (newValue : ℚ) (now : Nat) : SensorState × List String :=
  let v := max s.minValue (min s.maxValue newValue)
  let h0 := s.history ++ [(v, now)]
  let h := if h0.length > 60 then h0.drop 1 else h0
  ({ s with value := v, history := h },
   if s.hasGateway then ["sensor/" ++ s.id ++ "/reading"] else [])

/-- State of the motion sensor.  Its constructor calls
`super('motion', 'Motion', '', 0, 1)` and then sets `this.value = false`;
the dynamically-typed `value` field is modelled as a rational (`false` = 0,
`true` = 1), since the overriding `setValue` stores whatever it is given. -/
structure MotionSensorState where
  id : String
  name : String
  unit : String
  minValue : ℚ
  maxValue : ℚ
  value : ℚ
  history : List (ℚ × Nat)
  hasGateway : Bool
deriving DecidableEq

/-- `new MotionSensor()`. -/
def MotionSensor.mkNew : MotionSensorState :=
  { id := "motion", name := "Motion", unit := "", minValue := 0, maxValue := 1
    value := 0, history := [], hasGateway := false }

/-- `MotionSensor.setValue(detected)`: the override stores the argument
unchanged — no clamping, no history append, no cap — and publishes a
reading when a gateway is attached. -/
def MotionSensor.setValue (s : MotionSensorState) (detected : ℚ) :
    MotionSensorState × List String :=
  ({ s with value := detected },
   if s.hasGateway then ["sensor/" ++ s.id ++ "/reading"] else [])

/-! ### Devices (devices source file) -/

/-- State of a `Light`: base-class fields plus `brightness`. -/
structure LightState where
  id : String
  name : String
  isOn : Bool
  maxPowerWatts : ℚ
  brightness : ℚ
  hasGateway : Bool
deriving DecidableEq

/-- `new Light(id, name)`: 60 W, brightness 100 %. -/
def Light.mkNew (id name : String) : LightState :=
  { id := id, name := name, isOn := false, maxPowerWatts := 60
    brightness := 100, hasGateway := false }

/-- State of an `AirConditioner`: base-class fields plus mode, target
temperature and fan speed. -/
structure ACState where
  id : String
  name : String
  isOn : Bool
  maxPowerWatts : ℚ
  mode : String
  targetTemperature : ℚ
  fanSpeed : String
  hasGateway : Bool
deriving DecidableEq

/-- `new AirConditioner(id, name)`: 1500 W, mode `cool`, target 24,
fan speed `auto`. -/
def AirConditioner.mkNew (id name : String) : ACState :=
  { id := id, name := name, isOn := false, maxPowerWatts := 1500
    mode := "cool", targetTemperature := 24, fanSpeed := "auto", hasGateway := false }

/-- State of a `WaterHeater`: base-class fields plus water-temperature
fields and the heating flag. -/
structure WaterHeaterState where
  id : String
  name : String
  isOn : Bool
  maxPowerWatts : ℚ
  targetTemperature : ℚ
  currentWaterTemp : ℚ
  isHeating : Bool
  hasGateway : Bool
deriving DecidableEq

/-- `new WaterHeater(id, name)`: 2000 W, target 50 °C, water at 25 °C,
not heating. -/
def WaterHeater.mkNew (id name : String) : WaterHeaterState :=
  { id := id, name := name, isOn := false, maxPowerWatts := 2000
    targetTemperature := 50, currentWaterTemp := 25, isHeating := false
    hasGateway := false }

/-- `onStateChange` publish of the base class: topic `device/<id>/state`
when a gateway is attached, nothing otherwise. -/
def stateChangeMsgs (hasGateway : Bool) (id : String) : List String :=
  if hasGateway then ["device/" ++ id ++ "/state"] else []

/-- Base-class `Device.turnOn` as inherited by `Light`. -/
def Light.turnOn (d : LightState) : LightState × List String :=
  if !d.isOn then
    ({ d with isOn := true }, stateChangeMsgs d.hasGateway d.id)
  else (d, [])

/-- Base-class `Device.turnOff` as inherited by `Light`. -/
def Light.turnOff (d : LightState) : LightState × List String :=
  if d.isOn then
    ({ d with isOn := false }, stateChangeMsgs d.hasGateway d.id)
  else (d, [])

/-- Base-class `Device.turnOn` as inherited by `AirConditioner`. -/
def AirConditioner.turnOn (d : ACState) : ACState × List String :=
  if !d.isOn then
    ({ d with isOn := true }, stateChangeMsgs d.hasGateway d.id)
  else (d, [])

/-- Base-class `Device.turnOff` as inherited by `AirConditioner`. -/
def AirConditioner.turnOff (d : ACState) : ACState × List String :=
  if d.isOn then
    ({ d with isOn := false }, stateChangeMsgs d.hasGateway d.id)
  else (d, [])

/-- Base-class `Device.turnOn` as inherited by `WaterHeater`. -/
def WaterHeater.turnOn (d : WaterHeaterState) : WaterHeaterState × List String :=
  if !d.isOn then
    ({ d with isOn := true }, stateChangeMsgs d.hasGateway d.id)
  else (d, [])

/-- Base-class `Device.turnOff` as inherited by `WaterHeater`. -/
def WaterHeater.turnOff (d : WaterHeaterState) : WaterHeaterState × List String :=
  if d.isOn then
    ({ d with isOn := false }, stateChangeMsgs d.hasGateway d.id)
  else (d, [])

/-- `Light.setBrightness(level)`: clamps to [0,100] and publishes
`device/<id>/brightness` unconditionally (when a gateway is attached),
even when the clamped level equals the one already held. -/
def Light.setBrightness (d : LightState) (level : ℚ) : LightState × List String :=
  ({ d with brightness := max 0 (min 100 level) },
   if d.hasGateway then ["device/" ++ d.id ++ "/brightness"] else [])

/-- The `validModes` list of `AirConditioner.setMode`. -/
def validModes : List String := ["cool", "heat", "auto", "fan"]

/-- The `validSpeeds` list of `AirConditioner.setFanSpeed`. -/
def validSpeeds : List String := ["low", "medium", "high", "auto"]

/-- `AirConditioner.setMode(mode)`: accepts only members of `validModes`;
on acceptance stores the mode and publishes `device/<id>/mode` (even when
the mode is unchanged); otherwise does nothing. -/
def AirConditioner.setMode (d : ACState) (mode : String) : ACState × List String :=
  if validModes.contains mode then
    ({ d with mode := mode },
     if d.hasGateway then ["device/" ++ d.id ++ "/mode"] else [])
  else (d, [])

/-- `AirConditioner.setTargetTemperature(temp)`: clamps to [16,30] and
publishes `device/<id>/target-temp` unconditionally (when a gateway is
attached). -/
def AirConditioner.setTargetTemperature (d : ACState) (temp : ℚ) : ACState × List String :=
  ({ d with targetTemperature := max 16 (min 30 temp) },
   if d.hasGateway then ["device/" ++ d.id ++ "/target-temp"] else [])

/-- `AirConditioner.setFanSpeed(speed)`: accepts only members of
`validSpeeds`; stores the speed on acceptance.  Unlike the other setters
it contains no `gateway.publish` call at all. -/
def AirConditioner.setFanSpeed (d : ACState) (speed : String) : ACState × List String :=
  if validSpeeds.contains speed then
    ({ d with fanSpeed := speed }, [])
  else (d, [])

/-- The `modeMultiplier` object literal of
`AirConditioner.getCurrentPowerConsumption`: a partial map from mode
strings to multipliers; `none` models an absent key. -/
def modeMultiplier : String → Option ℚ
  | "cool" => some 1
  | "heat" => some (12/10)
  | "auto" => some (8/10)
  | "fan" => some (1/10)
  | _ => none

/-- A registered device, as held in the gateway's device registry. -/
inductive Device where
  | light : LightState → Device
  | ac : ACState → Device
  | waterHeater : WaterHeaterState → Device
deriving DecidableEq

/-- `getCurrentPowerConsumption`, dispatched on the device's class:
light = rated power scaled by brightness when on; AC = rated power times
the mode multiplier (with the `|| 1` fallback for an absent key) when on;
water heater = rated power when heating, 50 W standby when merely on;
all 0 when off. -/
def Device.getCurrentPowerConsumption : Device → ℚ
  | .light d => if !d.isOn then 0 else d.maxPowerWatts * d.brightness / 100
  | .ac d => if !d.isOn then 0 else d.maxPowerWatts * ((modeMultiplier d.mode).getD 1)
  | .waterHeater d =>
      if !d.isOn then 0 else if d.isHeating then d.maxPowerWatts else 50

/-! ### Gateway (gateway source file) -/

/-- `IoTGateway.getTotalPowerConsumption`: `let total = 0` then
`total += device.getCurrentPowerConsumption()` over the registry. -/
def IoTGateway.getTotalPowerConsumption (devices : List Device) : ℚ :=
  devices.foldl (fun total d => total + d.getCurrentPowerConsumption) 0

/-- The message-log maintenance inside `IoTGateway.publish`: push the new
entry, then shift the oldest off while more than 100 are held. -/
def IoTGateway.publishLog (log : List String) (topic : String) : List String :=
  let l := log ++ [topic]
  if l.length > 100 then l.drop 1 else l

/-- The activity-log maintenance inside `AutomationEngine.evaluate` for a
triggered rule: push the entry, then shift the oldest off while more than
50 are held. -/
def AutomationEngine.logActivity (log : List String) (ruleId : String) : List String :=
  let l := log ++ [ruleId]
  if l.length > 50 then l.drop 1 else l

/-! ### Automation rules (automation source file)

`AutomationRule.run` is: return false when disabled; otherwise call
`evaluate()` (which for the hysteresis rules mutates the no-motion
accumulator), and when it returns true call `execute()` and increment
`triggerCount`.  Each concrete rule below inlines that pattern over the
sensor values and devices it reads.  The global `gateway` of the
automation module is always constructed, so the `automation/triggered`
publish inside each `execute` is unconditional. -/

/-- The base-class bookkeeping a rule carries: `enabled` and
`triggerCount` (the `lastTriggered` wall-clock stamp carries no logic and
is omitted). -/
structure RuleState where
  enabled : Bool
  triggerCount : Nat
deriving DecidableEq

/-- A freshly constructed rule: enabled, never triggered. -/
def AutomationRule.mkNew : RuleState := { enabled := true, triggerCount := 0 }

/-- `HVACCoolingRule` evaluation: temperature above the threshold 26,
motion detected, and the AC currently off. -/
def HVACCoolingRule.evaluate (temp : ℚ) (motion : Bool) (ac : ACState) : Bool :=
  decide (temp > 26) && motion && !ac.isOn

/-- `HVACCoolingRule.execute`: set the AC mode to `cool`, turn the AC on,
publish `automation/triggered`. -/
def HVACCoolingRule.execute (ac : ACState) : ACState × List String :=
  let m := AirConditioner.setMode ac "cool"
  let t := AirConditioner.turnOn m.1
  (t.1, m.2 ++ t.2 ++ ["automation/triggered"])

/-- `run()` for `HVACCoolingRule`: returns the rule state, the AC state,
the published topics and whether the rule triggered. -/
def HVACCoolingRule.run (r : RuleState) (temp : ℚ) (motion : Bool) (ac : ACState) :
    RuleState × ACState × List String × Bool :=
  if !r.enabled then (r, ac, [], false)
  else if HVACCoolingRule.evaluate temp motion ac then
    let e := HVACCoolingRule.execute ac
    ({ r with triggerCount := r.triggerCount + 1 }, e.1, e.2, true)
  else (r, ac, [], false)

/-- `HVACOffRule` state: base-class bookkeeping plus the private
`noMotionDuration` accumulator (`thresholdMinutes` is the constant 5). -/
structure HVACOffRuleState where
  enabled : Bool
  triggerCount : Nat
  noMotionDuration : Nat
deriving DecidableEq

/-- `new HVACOffRule()`. -/
def HVACOffRule.mkNew : HVACOffRuleState :=
  { enabled := true, triggerCount := 0, noMotionDuration := 0 }

/-- `HVACOffRule.evaluate`: while motion is absent and the AC is on, add
the 2-time-unit tick interval to the accumulator and report whether it
reached `5 * 60`; otherwise reset the accumulator and report false. -/
def HVACOffRule.evaluate (r : HVACOffRuleState) (motion : Bool) (acIsOn : Bool) :
    HVACOffRuleState × Bool :=
  if !motion && acIsOn then
    let d := r.noMotionDuration + 2
    ({ r with noMotionDuration := d }, decide (d ≥ 5 * 60))
  else
    ({ r with noMotionDuration := 0 }, false)

/-- `run()` for `HVACOffRule`: when the evaluation fires, turn the AC
off, zero the accumulator, publish `automation/triggered`, and increment
`triggerCount`. -/
def HVACOffRule.run (r : HVACOffRuleState) (motion : Bool) (ac : ACState) :
    HVACOffRuleState × ACState × List String × Bool :=
  if !r.enabled then (r, ac, [], false)
  else
    let ev := HVACOffRule.evaluate r motion ac.isOn
    if ev.2 then
      let t := AirConditioner.turnOff ac
      ({ ev.1 with noMotionDuration := 0, triggerCount := ev.1.triggerCount + 1 },
       t.1, t.2 ++ ["automation/triggered"], true)
    else (ev.1, ac, [], false)

/-- Run `HVACOffRule` over a sequence of ticks, one motion reading per
tick; returns the final rule and AC state and the per-tick trigger
results. -/
def HVACOffRule.runTicks (r : HVACOffRuleState) (ac : ACState) :
    List Bool → HVACOffRuleState × ACState × List Bool
  | [] => (r, ac, [])
  | m :: ms =>
    let s := HVACOffRule.run r m ac
    let rest := HVACOffRule.runTicks s.1 s.2.1 ms
    (rest.1, rest.2.1, s.2.2.2 :: rest.2.2)

/-- `LightingOnRule` evaluation: ambient light below the threshold 300,
motion detected, and all three lights currently off. -/
def LightingOnRule.evaluate (ambientLight : ℚ) (motion : Bool)
    (l1 l2 l3 : LightState) : Bool :=
  decide (ambientLight < 300) && motion && (!l1.isOn && !l2.isOn && !l3.isOn)

/-- `LightingOnRule.execute`: turn on light 1 and light 2 (never light 3)
and publish `automation/triggered`. -/
def LightingOnRule.execute (l1 l2 : LightState) :
    LightState × LightState × List String :=
  let a := Light.turnOn l1
  let b := Light.turnOn l2
  (a.1, b.1, a.2 ++ b.2 ++ ["automation/triggered"])

/-- `run()` for `LightingOnRule`: returns the rule state, the three light
states, the published topics and whether the rule triggered. -/
def LightingOnRule.run (r : RuleState) (ambientLight : ℚ) (motion : Bool)
    (l1 l2 l3 : LightState) :
    RuleState × LightState × LightState × LightState × List String × Bool :=
  if !r.enabled then (r, l1, l2, l3, [], false)
  else if LightingOnRule.evaluate ambientLight motion l1 l2 l3 then
    let e := LightingOnRule.execute l1 l2
    ({ r with triggerCount := r.triggerCount + 1 }, e.1, e.2.1, l3, e.2.2, true)
  else (r, l1, l2, l3, [], false)

/-! ### Concrete instances from the source's `devices` and `sensors`
object literals, plus small driver definitions used by the claims. -/

/-- `devices.light1 = new Light('light1', 'Living Room Light')`. -/
def light1Init : LightState := Light.mkNew "light1" "Living Room Light"

/-- `devices.light2 = new Light('light2', 'Bedroom Light')`. -/
def light2Init : LightState := Light.mkNew "light2" "Bedroom Light"

/-- `devices.light3 = new Light('light3', 'Kitchen Light')`. -/
def light3Init : LightState := Light.mkNew "light3" "Kitchen Light"

/-- `devices.ac = new AirConditioner('ac', 'Air Conditioner')`. -/
def acInit : ACState := AirConditioner.mkNew "ac" "Air Conditioner"

/-- `devices.waterHeater = new WaterHeater('waterHeater', 'Water Heater')`. -/
def waterHeaterInit : WaterHeaterState := WaterHeater.mkNew "waterHeater" "Water Heater"

/-- `sensors.motion = new MotionSensor()`. -/
def motionInit : MotionSensorState := MotionSensor.mkNew

/-- `sensors.power = new PowerSensor()`: `super('power', 'Power
Consumption', 'W', 0, 5000)`. -/
def powerSensorInit : SensorState := Sensor.mkNew "power" "Power Consumption" "W" 0 5000

/-- `devices.ac` after `gateway.registerDevice` has attached the gateway. -/
def acRegistered : ACState := { acInit with hasGateway := true }

/-- `devices.light1` after registration. -/
def light1Registered : LightState := { light1Init with hasGateway := true }

/-- `devices.light2` after registration. -/
def light2Registered : LightState := { light2Init with hasGateway := true }

/-- `devices.light3` after registration. -/
def light3Registered : LightState := { light3Init with hasGateway := true }

/-- The registered AC switched on (starting state of the cooling-off
scenario). -/
def acRunning : ACState := { acRegistered with isOn := true }

/-- The device registry of the total-power scenario: light 1 on at 50 %
brightness, the AC on in cool mode, the water heater on but not
heating. -/
def scenarioDevices : List Device :=
  [ .light { light1Registered with isOn := true, brightness := 50 },
    .ac { acRegistered with isOn := true, mode := "cool" },
    .waterHeater { waterHeaterInit with hasGateway := true, isOn := true, isHeating := false } ]

/-- `n` sequential `setValue` writes into a sensor: the `k`-th write
(0-based) stores value `k` at timestamp `k`. -/
def writeSeq (s : SensorState) : Nat → SensorState
  | 0 => s
  | n + 1 => (Sensor.setValue (writeSeq s n) (n : ℚ) n).1

/-- The externally invocable AC setters whose arguments are arbitrary
strings (`setMode`, `setFanSpeed`). -/
inductive ACOp where
  | setMode (mode : String)
  | setFanSpeed (speed : String)

/-- Apply one setter call to an AC state (discarding the publishes). -/
def ACOp.apply (d : ACState) : ACOp → ACState
  | .setMode m => (AirConditioner.setMode d m).1
  | .setFanSpeed sp => (AirConditioner.setFanSpeed d sp).1

/-- Apply a whole sequence of setter calls. -/
def applyACOps (d : ACState) (ops : List ACOp) : ACState :=
  ops.foldl ACOp.apply d

/-! ## Theorems -/

/-- The clamp pattern lands inside the interval whenever the bounds are
ordered. -/
theorem clamp_le_and_ge (lo hi x : ℚ) (h : lo ≤ hi) :
    lo ≤ clamp lo hi x ∧ clamp lo hi x ≤ hi :=
  ⟨le_max_left lo (min hi x), max_le h (min_le_left hi x)⟩

/-- C1 counterexample: the claim quantifies over every sensor, motion
included, but `MotionSensor.setValue` overrides the base class and stores
its argument unchanged: after `setValue(5)` on the freshly constructed
motion sensor the stored value is 5, which is neither the clamped value
nor within the sensor's bounds `[0, 1]`. -/
theorem C1_motion_counterexample :
    (MotionSensor.setValue motionInit 5).1.value = 5 ∧
    motionInit.maxValue = 1 ∧
    ¬ (MotionSensor.setValue motionInit 5).1.value ≤ motionInit.maxValue ∧
    (MotionSensor.setValue motionInit 5).1.value ≠
      clamp motionInit.minValue motionInit.maxValue 5 := by
  refine ⟨rfl, rfl, ?_, ?_⟩ <;> decide

/-- C1 (amended): for every sensor that uses the base-class `setValue`
(temperature, humidity, power, distance, ambient light), after
`setValue(x)` the stored value equals `x` clamped to the sensor's
inclusive bounds and hence lies within them (the bounds being ordered);
the motion sensor's overriding `setValue` instead stores its input
unchanged, with no clamping. -/
theorem C1_setValue_clamps :
    (∀ (s : SensorState) (x : ℚ) (t : Nat), s.minValue ≤ s.maxValue →
      (Sensor.setValue s x t).1.value = clamp s.minValue s.maxValue x ∧
      s.minValue ≤ (Sensor.setValue s x t).1.value ∧
      (Sensor.setValue s x t).1.value ≤ s.maxValue) ∧
    (∀ (m : MotionSensorState) (y : ℚ),
      (MotionSensor.setValue m y).1.value = y) := by
  constructor
  · intro s x t h
    exact ⟨rfl, le_max_left _ _, max_le h (min_le_left _ _)⟩
  · intro m y
    rfl

/-- C1 witness: the power sensor (bounds `[0, 5000]`) written with 6000
stores the clamped value 5000. -/
theorem C1_witness :
    powerSensorInit.minValue ≤ powerSensorInit.maxValue ∧
    (Sensor.setValue powerSensorInit 6000 0).1.value =
      clamp powerSensorInit.minValue powerSensorInit.maxValue 6000 ∧
    (Sensor.setValue powerSensorInit 6000 0).1.value ≤ powerSensorInit.maxValue :=
  ⟨by decide, (C1_setValue_clamps.1 powerSensorInit 6000 0 (by decide)).1,
   (C1_setValue_clamps.1 powerSensorInit 6000 0 (by decide)).2.2⟩

/-- C4 counterexample: `MotionSensor.setValue` never touches the history,
so a `setValue` call on the motion sensor does not append an entry. -/
theorem C4_motion_counterexample :
    ¬ ((MotionSensor.setValue motionInit 1).1.history.length
        = motionInit.history.length + 1) := by
  decide

set_option maxRecDepth 4000 in
/-- C4 (amended): for every sensor that uses the base-class `setValue`,
each call appends one (clamped value, timestamp) entry; the history
length never exceeds 60 (below the cap the entry is purely appended, at
the cap the oldest entry is also shifted off); after 61 sequential writes
into the power sensor the oldest entry has been evicted and the newest is
present.  The motion sensor's overriding `setValue` leaves its history
unchanged. -/
theorem C4_history_capped :
    (∀ (s : SensorState) (x : ℚ) (t : Nat), s.history.length ≤ 60 →
        (Sensor.setValue s x t).1.history.length ≤ 60) ∧
    (∀ (s : SensorState) (x : ℚ) (t : Nat), s.history.length < 60 →
        (Sensor.setValue s x t).1.history
          = s.history ++ [(clamp s.minValue s.maxValue x, t)]) ∧
    (∀ (s : SensorState) (x : ℚ) (t : Nat), s.history.length = 60 →
        (Sensor.setValue s x t).1.history
          = s.history.drop 1 ++ [(clamp s.minValue s.maxValue x, t)]) ∧
    ((writeSeq powerSensorInit 61).history.length = 60 ∧
      ((0 : ℚ), (0 : Nat)) ∉ (writeSeq powerSensorInit 61).history ∧
      ((60 : ℚ), (60 : Nat)) ∈ (writeSeq powerSensorInit 61).history) ∧
    (∀ (m : MotionSensorState) (y : ℚ),
      (MotionSensor.setValue m y).1.history = m.history) := by
  refine ⟨?_, ?_, ?_, by decide, fun m y => rfl⟩
  · intro s x t h
    unfold Sensor.setValue
    dsimp only
    split
    · simp only [List.length_drop, List.length_append, List.length_singleton]
      omega
    · rename_i hle
      simp only [List.length_append, List.length_singleton] at hle ⊢
      omega
  · intro s x t h
    unfold Sensor.setValue clamp
    dsimp only
    rw [if_neg (by simp only [List.length_append, List.length_singleton]; omega)]
  · intro s x t h
    unfold Sensor.setValue clamp
    dsimp only
    rw [if_pos (by simp only [List.length_append, List.length_singleton]; omega)]
    rw [List.drop_append_of_le_length (by omega)]

/-- C4 witness: a write into the freshly constructed power sensor (empty
history) keeps the cap and appends exactly one entry. -/
theorem C4_witness :
    powerSensorInit.history.length ≤ 60 ∧
    (Sensor.setValue powerSensorInit 100 7).1.history.length ≤ 60 ∧
    (Sensor.setValue powerSensorInit 100 7).1.history
      = powerSensorInit.history
          ++ [(clamp powerSensorInit.minValue powerSensorInit.maxValue 100, 7)] :=
  ⟨by decide, C4_history_capped.1 powerSensorInit 100 7 (by decide),
   C4_history_capped.2.1 powerSensorInit 100 7 (by decide)⟩

/-- C2 counterexample: with the gateway attached, `setFanSpeed('high')`
changes the AC's fan speed from `auto` to `high` yet publishes nothing
(the method has no publish call), while `setBrightness(100)` on a light
already at brightness 100 changes no state yet publishes a brightness
message. -/
theorem C2_counterexample :
    ((AirConditioner.setFanSpeed acRegistered "high").1.fanSpeed = "high" ∧
      acRegistered.fanSpeed = "auto" ∧
      (AirConditioner.setFanSpeed acRegistered "high").1 ≠ acRegistered ∧
      (AirConditioner.setFanSpeed acRegistered "high").2 = []) ∧
    ((Light.setBrightness light1Registered 100).1 = light1Registered ∧
      (Light.setBrightness light1Registered 100).2 ≠ []) := by
  refine ⟨⟨rfl, rfl, ?_, rfl⟩, ?_, ?_⟩ <;> decide

/-- C2 (amended): `turnOn` and `turnOff` publish exactly one device-state
message when they change `isOn` (with a gateway attached) and are
publish-free no-ops otherwise; `setMode` publishes whenever its argument
is a valid mode, even when equal to the mode already held; `setBrightness`
and `setTargetTemperature` publish on every call, even when the stored
value is unchanged; `setFanSpeed` never publishes, even when it changes
the fan speed. -/
theorem C2_mutator_publishes :
    (∀ l : LightState, l.isOn = false → l.hasGateway = true →
      Light.turnOn l = ({ l with isOn := true }, ["device/" ++ l.id ++ "/state"])) ∧
    (∀ l : LightState, l.isOn = true → Light.turnOn l = (l, [])) ∧
    (∀ l : LightState, l.isOn = true → l.hasGateway = true →
      Light.turnOff l = ({ l with isOn := false }, ["device/" ++ l.id ++ "/state"])) ∧
    (∀ l : LightState, l.isOn = false → Light.turnOff l = (l, [])) ∧
    (∀ a : ACState, a.isOn = false → a.hasGateway = true →
      AirConditioner.turnOn a = ({ a with isOn := true }, ["device/" ++ a.id ++ "/state"])) ∧
    (∀ a : ACState, a.isOn = true → AirConditioner.turnOn a = (a, [])) ∧
    (∀ a : ACState, a.isOn = true → a.hasGateway = true →
      AirConditioner.turnOff a = ({ a with isOn := false }, ["device/" ++ a.id ++ "/state"])) ∧
    (∀ a : ACState, a.isOn = false → AirConditioner.turnOff a = (a, [])) ∧
    (∀ w : WaterHeaterState, w.isOn = false → w.hasGateway = true →
      WaterHeater.turnOn w = ({ w with isOn := true }, ["device/" ++ w.id ++ "/state"])) ∧
    (∀ w : WaterHeaterState, w.isOn = true → WaterHeater.turnOn w = (w, [])) ∧
    (∀ w : WaterHeaterState, w.isOn = true → w.hasGateway = true →
      WaterHeater.turnOff w = ({ w with isOn := false }, ["device/" ++ w.id ++ "/state"])) ∧
    (∀ w : WaterHeaterState, w.isOn = false → WaterHeater.turnOff w = (w, [])) ∧
    (∀ (a : ACState) (m : String), a.hasGateway = true → m ∈ validModes →
      (AirConditioner.setMode a m).2 = ["device/" ++ a.id ++ "/mode"]) ∧
    (∀ (l : LightState) (lvl : ℚ), l.hasGateway = true →
      (Light.setBrightness l lvl).2 = ["device/" ++ l.id ++ "/brightness"]) ∧
    (∀ (a : ACState) (t : ℚ), a.hasGateway = true →
      (AirConditioner.setTargetTemperature a t).2 = ["device/" ++ a.id ++ "/target-temp"]) ∧
    (∀ (a : ACState) (sp : String), (AirConditioner.setFanSpeed a sp).2 = []) := by
  refine ⟨?_, ?_, ?_, ?_, ?_, ?_, ?_, ?_, ?_, ?_, ?_, ?_, ?_, ?_, ?_, ?_⟩
  · intro l h1 h2; simp [Light.turnOn, stateChangeMsgs, h1, h2]
  · intro l h1; simp [Light.turnOn, h1]
  · intro l h1 h2; simp [Light.turnOff, stateChangeMsgs, h1, h2]
  · intro l h1; simp [Light.turnOff, h1]
  · intro a h1 h2; simp [AirConditioner.turnOn, stateChangeMsgs, h1, h2]
  · intro a h1; simp [AirConditioner.turnOn, h1]
  · intro a h1 h2; simp [AirConditioner.turnOff, stateChangeMsgs, h1, h2]
  · intro a h1; simp [AirConditioner.turnOff, h1]
  · intro w h1 h2; simp [WaterHeater.turnOn, stateChangeMsgs, h1, h2]
  · intro w h1; simp [WaterHeater.turnOn, h1]
  · intro w h1 h2; simp [WaterHeater.turnOff, stateChangeMsgs, h1, h2]
  · intro w h1; simp [WaterHeater.turnOff, h1]
  · intro a m h1 hm
    simp [AirConditioner.setMode, List.contains, List.elem_iff.mpr hm, h1, hm]
  · intro l lvl h1; simp [Light.setBrightness, h1]
  · intro a t h1; simp [AirConditioner.setTargetTemperature, h1]
  · intro a sp
    unfold AirConditioner.setFanSpeed
    split <;> rfl

/-- C2 witness: turning on the registered, currently-off living-room
light publishes one device-state message, and a concrete valid
`setFanSpeed` call publishes nothing. -/
theorem C2_witness :
    light1Registered.isOn = false ∧
    Light.turnOn light1Registered
      = ({ light1Registered with isOn := true }, ["device/light1/state"]) ∧
    (AirConditioner.setFanSpeed acRegistered "low").2 = [] := by
  obtain ⟨h1, -, -, -, -, -, -, -, -, -, -, -, -, -, -, hsp⟩ := C2_mutator_publishes
  exact ⟨rfl, by simpa using h1 light1Registered rfl rfl, hsp acRegistered "low"⟩

set_option maxRecDepth 40000 in
set_option maxHeartbeats 1000000 in
/-- C3: starting from a zero accumulator with the AC on, 150 consecutive
no-motion ticks (2 time-units each) make the cooling-off rule trigger
exactly once, on the 150th tick, turning the AC off with `triggerCount`
1; if motion occurs on tick 149 the accumulator resets to 0 and the rule
does not trigger during that episode (even across 149 further no-motion
ticks). -/
theorem C3_cooling_off :
    ((HVACOffRule.runTicks HVACOffRule.mkNew acRunning
        (List.replicate 150 false)).2.2 = List.replicate 149 false ++ [true] ∧
      (HVACOffRule.runTicks HVACOffRule.mkNew acRunning
        (List.replicate 150 false)).2.1.isOn = false ∧
      (HVACOffRule.runTicks HVACOffRule.mkNew acRunning
        (List.replicate 150 false)).1.triggerCount = 1) ∧
    ((HVACOffRule.runTicks HVACOffRule.mkNew acRunning
        (List.replicate 148 false ++ [true])).1.noMotionDuration = 0 ∧
      (HVACOffRule.runTicks HVACOffRule.mkNew acRunning
        (List.replicate 148 false ++ [true] ++ List.replicate 149 false)).2.2
        = List.replicate 298 false) := by
  refine ⟨⟨?_, ?_, ?_⟩, ?_, ?_⟩ <;> decide

/-- Folding `total += power` over a device list from any accumulator
yields the accumulator plus the sum of the per-device powers. -/
theorem foldl_add_power (l : List Device) : ∀ a : ℚ,
    l.foldl (fun total d => total + d.getCurrentPowerConsumption) a
      = a + (l.map Device.getCurrentPowerConsumption).sum := by
  induction l with
  | nil => intro a; simp
  | cons d ds ih => intro a; simp [ih, add_assoc]

/-- C5: the broker's total power consumption is the sum over the
registered devices of each device's power function at its current state;
in the concrete scenario (light 1 on at 50 % brightness = 30 W, AC on in
cool mode = 1500 W, water heater on but not heating = 50 W standby) the
total is exactly 1580 W. -/
theorem C5_total_power :
    (∀ devices : List Device,
      IoTGateway.getTotalPowerConsumption devices
        = (devices.map Device.getCurrentPowerConsumption).sum) ∧
    IoTGateway.getTotalPowerConsumption scenarioDevices = 1580 := by
  constructor
  · intro devices
    simpa using foldl_add_power devices 0
  · simp only [IoTGateway.getTotalPowerConsumption, scenarioDevices,
      Device.getCurrentPowerConsumption, light1Registered, light1Init, Light.mkNew,
      acRegistered, acInit, AirConditioner.mkNew, waterHeaterInit, WaterHeater.mkNew,
      modeMultiplier, List.foldl]
    norm_num

/-- C6: with temperature 27, motion detected and the AC off, one
evaluation of the cooling-on rule triggers it: the AC is on afterwards,
its mode is `cool`, and `triggerCount` is incremented from 0 to 1. -/
theorem C6_cooling_on :
    (HVACCoolingRule.run AutomationRule.mkNew 27 true acRegistered).2.2.2 = true ∧
    (HVACCoolingRule.run AutomationRule.mkNew 27 true acRegistered).2.1.isOn = true ∧
    (HVACCoolingRule.run AutomationRule.mkNew 27 true acRegistered).2.1.mode = "cool" ∧
    AutomationRule.mkNew.triggerCount = 0 ∧
    (HVACCoolingRule.run AutomationRule.mkNew 27 true acRegistered).1.triggerCount = 1 := by
  refine ⟨?_, ?_, ?_, ?_, ?_⟩ <;> decide

/-- C7: with all three lights off, ambient light 100 (below the 300
threshold) and motion detected, one evaluation of the lights-on rule
triggers it: lights 1 and 2 are on afterwards, light 3 stays off — and in
general the rule returns the third light unchanged on every run. -/
theorem C7_lights_on :
    ((LightingOnRule.run AutomationRule.mkNew 100 true
        light1Registered light2Registered light3Registered).2.2.2.2.2 = true ∧
      (LightingOnRule.run AutomationRule.mkNew 100 true
        light1Registered light2Registered light3Registered).2.1.isOn = true ∧
      (LightingOnRule.run AutomationRule.mkNew 100 true
        light1Registered light2Registered light3Registered).2.2.1.isOn = true ∧
      (LightingOnRule.run AutomationRule.mkNew 100 true
        light1Registered light2Registered light3Registered).2.2.2.1.isOn = false) ∧
    (∀ (r : RuleState) (amb : ℚ) (motion : Bool) (l1 l2 l3 : LightState),
      (LightingOnRule.run r amb motion l1 l2 l3).2.2.2.1 = l3) := by
  constructor
  · refine ⟨?_, ?_, ?_, ?_⟩ <;> decide
  · intro r amb motion l1 l2 l3
    unfold LightingOnRule.run
    split
    · rfl
    · split <;> rfl

/-- One capped push into the broker's message log keeps it within 100
entries. -/
theorem publishLog_length_le (log : List String) (t : String) (h : log.length ≤ 100) :
    (IoTGateway.publishLog log t).length ≤ 100 := by
  unfold IoTGateway.publishLog
  dsimp only
  split
  · simp only [List.length_drop, List.length_append, List.length_singleton]
    omega
  · rename_i hle
    simp only [gt_iff_lt, not_lt, List.length_append, List.length_singleton] at hle ⊢
    omega

/-- One capped push into the engine's activity log keeps it within 50
entries. -/
theorem logActivity_length_le (log : List String) (i : String) (h : log.length ≤ 50) :
    (AutomationEngine.logActivity log i).length ≤ 50 := by
  unfold AutomationEngine.logActivity
  dsimp only
  split
  · simp only [List.length_drop, List.length_append, List.length_singleton]
    omega
  · rename_i hle
    simp only [gt_iff_lt, not_lt, List.length_append, List.length_singleton] at hle ⊢
    omega

/-- The message-log cap survives any sequence of publishes. -/
theorem foldl_publishLog_le (topics : List String) :
    ∀ log : List String, log.length ≤ 100 →
      ((topics.foldl IoTGateway.publishLog log).length ≤ 100) := by
  induction topics with
  | nil => intro log h; simpa using h
  | cons t ts ih =>
    intro log h
    exact ih _ (publishLog_length_le log t h)

/-- The activity-log cap survives any sequence of triggered-rule
recordings. -/
theorem foldl_logActivity_le (ids : List String) :
    ∀ log : List String, log.length ≤ 50 →
      ((ids.foldl AutomationEngine.logActivity log).length ≤ 50) := by
  induction ids with
  | nil => intro log h; simpa using h
  | cons i is ih =>
    intro log h
    exact ih _ (logActivity_length_le log i h)

/-- C8: starting empty, the broker's message log never exceeds 100
entries and the engine's activity log never exceeds 50, for any sequence
of publishes / triggered-rule recordings; a push into a log at its cap
evicts the oldest entry and retains the newest. -/
theorem C8_log_caps :
    (∀ topics : List String, (topics.foldl IoTGateway.publishLog []).length ≤ 100) ∧
    (∀ ids : List String, (ids.foldl AutomationEngine.logActivity []).length ≤ 50) ∧
    (∀ (log : List String) (t : String), log.length ≤ 100 →
        (IoTGateway.publishLog log t).length ≤ 100) ∧
    (∀ (log : List String) (t : String), log.length = 100 →
        IoTGateway.publishLog log t = log.drop 1 ++ [t]) ∧
    (∀ (log : List String) (i : String), log.length ≤ 50 →
        (AutomationEngine.logActivity log i).length ≤ 50) ∧
    (∀ (log : List String) (i : String), log.length = 50 →
        AutomationEngine.logActivity log i = log.drop 1 ++ [i]) := by
  refine ⟨fun topics => foldl_publishLog_le topics [] (by simp),
    fun ids => foldl_logActivity_le ids [] (by simp),
    publishLog_length_le, ?_, logActivity_length_le, ?_⟩
  · intro log t h
    unfold IoTGateway.publishLog
    dsimp only
    rw [if_pos (by simp only [List.length_append, List.length_singleton]; omega)]
    rw [List.drop_append_of_le_length (by omega)]
  · intro log i h
    unfold AutomationEngine.logActivity
    dsimp only
    rw [if_pos (by simp only [List.length_append, List.length_singleton]; omega)]
    rw [List.drop_append_of_le_length (by omega)]

/-- C8 witness: a push into a message log holding exactly 100 entries
(resp. an activity log holding exactly 50) drops the oldest entry and
appends the new one. -/
theorem C8_witness :
    (List.replicate 100 "x").length = 100 ∧
    IoTGateway.publishLog (List.replicate 100 "x") "y"
      = (List.replicate 100 "x").drop 1 ++ ["y"] ∧
    (List.replicate 50 "r").length = 50 ∧
    AutomationEngine.logActivity (List.replicate 50 "r") "q"
      = (List.replicate 50 "r").drop 1 ++ ["q"] :=
  ⟨by simp, C8_log_caps.2.2.2.1 (List.replicate 100 "x") "y" (by simp),
   by simp, C8_log_caps.2.2.2.2.2 (List.replicate 50 "r") "q" (by simp)⟩

/-- C9: `setMode` with a string outside the four valid modes and
`setFanSpeed` with a string outside the four valid speeds are rejected —
the entire device state is unchanged and nothing is published — while
`setTargetTemperature` clamps its argument to [16, 30]. -/
theorem C9_setter_validation :
    (∀ (a : ACState) (m : String), m ∉ validModes →
        AirConditioner.setMode a m = (a, [])) ∧
    (∀ (a : ACState) (sp : String), sp ∉ validSpeeds →
        AirConditioner.setFanSpeed a sp = (a, [])) ∧
    (∀ (a : ACState) (t : ℚ),
        (AirConditioner.setTargetTemperature a t).1
          = { a with targetTemperature := clamp 16 30 t }) := by
  refine ⟨?_, ?_, fun a t => rfl⟩
  · intro a m hm
    simp [AirConditioner.setMode, hm]
  · intro a sp hsp
    simp [AirConditioner.setFanSpeed, hsp]

/-- C9 witness: concrete invalid strings are rejected without state
change or publish, and an out-of-range target temperature is clamped. -/
theorem C9_witness :
    ("banana" ∉ validModes) ∧
    AirConditioner.setMode acRegistered "banana" = (acRegistered, []) ∧
    ("turbo" ∉ validSpeeds) ∧
    AirConditioner.setFanSpeed acRegistered "turbo" = (acRegistered, []) ∧
    (AirConditioner.setTargetTemperature acRegistered 100).1
      = { acRegistered with targetTemperature := clamp 16 30 100 } :=
  ⟨by decide, C9_setter_validation.1 acRegistered "banana" (by decide),
   by decide, C9_setter_validation.2.1 acRegistered "turbo" (by decide),
   C9_setter_validation.2.2 acRegistered 100⟩

/-- Every member of the valid mode list has a defined multiplier in the
`modeMultiplier` map. -/
theorem modeMultiplier_isSome (m : String) (hm : m ∈ validModes) :
    (modeMultiplier m).isSome = true := by
  simp only [validModes, List.mem_cons, List.not_mem_nil, or_false] at hm
  rcases hm with rfl | rfl | rfl | rfl <;> rfl

/-- A single `setMode` / `setFanSpeed` call preserves validity of the
stored mode and fan speed. -/
theorem acOp_apply_invariant (d : ACState) (op : ACOp)
    (h1 : d.mode ∈ validModes) (h2 : d.fanSpeed ∈ validSpeeds) :
    (ACOp.apply d op).mode ∈ validModes ∧ (ACOp.apply d op).fanSpeed ∈ validSpeeds := by
  cases op with
  | setMode m =>
    unfold ACOp.apply AirConditioner.setMode
    by_cases hmem : m ∈ validModes <;> refine ⟨?_, ?_⟩ <;> simp [hmem, h1, h2]
  | setFanSpeed sp =>
    unfold ACOp.apply AirConditioner.setFanSpeed
    by_cases hmem : sp ∈ validSpeeds <;> refine ⟨?_, ?_⟩ <;> simp [hmem, h1, h2]

/-- The validity invariant survives any sequence of setter calls. -/
theorem applyACOps_invariant (ops : List ACOp) :
    ∀ d : ACState, d.mode ∈ validModes → d.fanSpeed ∈ validSpeeds →
      (applyACOps d ops).mode ∈ validModes ∧
      (applyACOps d ops).fanSpeed ∈ validSpeeds := by
  induction ops with
  | nil => intro d h1 h2; exact ⟨h1, h2⟩
  | cons op ops ih =>
    intro d h1 h2
    have hstep := acOp_apply_invariant d op h1 h2
    exact ih (ACOp.apply d op) hstep.1 hstep.2

/-- C10: from the constructor state, any sequence of `setMode` /
`setFanSpeed` calls with arbitrary string arguments keeps `mode` within
the four valid modes and `fanSpeed` within the four valid speeds, so the
`modeMultiplier` lookup in `getCurrentPowerConsumption` is always defined
and its `|| 1` fallback is never taken. -/
theorem C10_mode_invariant (id name : String) (ops : List ACOp) :
    (applyACOps (AirConditioner.mkNew id name) ops).mode ∈ validModes ∧
    (applyACOps (AirConditioner.mkNew id name) ops).fanSpeed ∈ validSpeeds ∧
    (modeMultiplier (applyACOps (AirConditioner.mkNew id name) ops).mode).isSome = true := by
  have h0m : (AirConditioner.mkNew id name).mode ∈ validModes := by
    simp [AirConditioner.mkNew, validModes]
  have h0s : (AirConditioner.mkNew id name).fanSpeed ∈ validSpeeds := by
    simp [AirConditioner.mkNew, validSpeeds]
  obtain ⟨hm, hs⟩ := applyACOps_invariant ops (AirConditioner.mkNew id name) h0m h0s
  exact ⟨hm, hs, modeMultiplier_isSome _ hm⟩

end SmartHome
